import Mathlib

/- Shallow embedding of the tool-calling core of the rcb-01 repository:
   backend/search_tools.py (CourseSearchTool and ToolManager) and
   backend/ai_generator.py (AIGenerator.generate_response together with its
   sequential tool-execution loop).  Python exceptions are modelled by the
   Except String monad, carrying the rendered exception message; Python None
   is Option; Python dict insertion order is association-list order; Python
   truthiness of optional strings and integers is made explicit. -/

/-- Keyword arguments of a tool call (the kwargs dict), as an association
    list of argument name to argument value. -/
abbrev ToolArgs := List (String × String)

/-- A source citation recorded by a tool for the UI: the dict with keys
    "text" and "url" built in search_tools.py. -/
structure Citation where
  text : String
  url : Option String
deriving DecidableEq

/-- Per-chunk metadata dict of a search hit.  The code reads exactly two
    keys: course_title with default "unknown", and lesson_number with
    default None. -/
structure ChunkMeta where
  course_title : Option String
  lesson_number : Option Int
deriving DecidableEq

/-- The result envelope returned by VectorStore.search.  The class itself
    lives in vector_store.py, which is not among the sources; its shape is
    the spec's SearchResultSet: parallel documents and metadata lists plus
    an optional error string.  Distances are never read on the claimed code
    paths and are omitted. -/
structure SearchResults where
  documents : List String
  metadata : List ChunkMeta
  error : Option String
deriving DecidableEq

/-- Modelled from the spec: SearchResults.is_empty lives in vector_store.py,
    which is not among the sources; per the spec an "empty" result set is a
    non-error set of zero length. -/
def SearchResults.is_empty (r : SearchResults) : Bool :=
  r.documents.isEmpty

/-- Python truthiness of an optional string: present and non-empty. -/
def truthyStr : Option String → Bool
  | none => false
  | some s => !s.isEmpty

/-- Python truthiness of an optional integer: present and non-zero. -/
def truthyInt : Option Int → Bool
  | none => false
  | some n => n != 0

/-- Python truthiness filtering of an optional link string, as in the
    pattern where a link is used when truthy and None is stored
    otherwise. -/
def truthyLink : Option String → Option String
  | none => none
  | some s => if s.isEmpty then none else some s

/-- Modelled from the spec: the Retrieval Engine interface the tools call
    (vector_store.py is not among the sources).  search returns a
    SearchResultSet; the two link getters return an optional URL string. -/
structure VectorStore where
  search : String → Option String → Option Int → SearchResults
  get_lesson_link : String → Int → Option String
  get_course_link : String → Option String

/-- CourseSearchTool: the vector store plus the mutable last_sources
    attribute holding the citations of the most recent formatting run. -/
structure CourseSearchTool where
  store : VectorStore
  last_sources : List Citation

/-- CourseSearchTool._format_results: formats every (document, metadata)
    pair of the zip as a bracketed course/lesson header followed by the
    document, joined by blank lines, and records one citation per pair,
    overwriting last_sources.  Returns the formatted text together with the
    updated tool state. -/
def CourseSearchTool.format_results (tool : CourseSearchTool)
    (results : SearchResults) : String × CourseSearchTool :=
  let pairs := (results.documents.zip results.metadata).map (fun dm =>
    let course_title := dm.2.course_title.getD "unknown"
    let header :=
      match dm.2.lesson_number with
      | some n => "[" ++ course_title ++ " - Lesson " ++ toString n ++ "]"
      | none => "[" ++ course_title ++ "]"
    let source : Citation :=
      match dm.2.lesson_number with
      | some n =>
        ⟨course_title ++ " - Lesson " ++ toString n,
         truthyLink (tool.store.get_lesson_link course_title n)⟩
      | none =>
        ⟨course_title, truthyLink (tool.store.get_course_link course_title)⟩
    (header ++ "\n" ++ dm.1, source))
  (String.intercalate "\n\n" (pairs.map Prod.fst),
   { tool with last_sources := pairs.map Prod.snd })

/-- CourseSearchTool.execute: runs the store search, passes a truthy error
    string through, answers an empty result with the templated
    "No relevant content found..." message whose clauses are guarded by
    Python truthiness of the two filters, and otherwise formats the
    results.  Returns the result string with the possibly updated tool. -/
def CourseSearchTool.execute (tool : CourseSearchTool) (query : String)
    (course_name : Option String) (lesson_number : Option Int) :
    String × CourseSearchTool :=
  let results := tool.store.search query course_name lesson_number
  if truthyStr results.error then
    (results.error.getD "", tool)
  else if results.is_empty then
    let filter_info :=
      (if truthyStr course_name then
        " in course '" ++ course_name.getD "" ++ "'"
      else "")
        ++ (if truthyInt lesson_number then
          " in lesson " ++ toString (lesson_number.getD 0)
        else "")
    ("No relevant content found" ++ filter_info ++ ".", tool)
  else
    tool.format_results results

/-- A registered tool as ToolManager sees it: a fallible execute (failure
    is Except.error carrying the stringified exception) and the
    last_sources attribute when the tool object has one (the hasattr
    check), as an Option. -/
structure RegisteredTool where
  exec : ToolArgs → Except String String
  last_sources : Option (List Citation)

/-- ToolManager: the tools dict keyed by tool name, in registration
    (= insertion) order. -/
structure ToolManager where
  tools : List (String × RegisteredTool)

/-- ToolManager.execute_tool: dispatch by name; an unregistered name yields
    the fixed not-found string as a normal return, a registered tool's
    execute is called and may fail. -/
def ToolManager.execute_tool (m : ToolManager) (tool_name : String)
    (kwargs : ToolArgs) : Except String String :=
  match m.tools.lookup tool_name with
  | none => .ok ("Tool '" ++ tool_name ++ "' not found")
  | some tool => tool.exec kwargs

/-- The for-loop of ToolManager.get_last_sources: return the first
    registered tool's last_sources that exists and is non-empty. -/
def firstNonemptySources : List (String × RegisteredTool) → List Citation
  | [] => []
  | (_, tool) :: rest =>
    match tool.last_sources with
    | some l => if l.isEmpty then firstNonemptySources rest else l
    | none => firstNonemptySources rest

/-- ToolManager.get_last_sources: scan tools in registration order for a
    non-empty citation list; empty list when none is found. -/
def ToolManager.get_last_sources (m : ToolManager) : List Citation :=
  firstNonemptySources m.tools

/-- ToolManager.reset_sources: set last_sources to the empty list on every
    registered tool that has the attribute. -/
def ToolManager.reset_sources (m : ToolManager) : ToolManager :=
  ⟨m.tools.map (fun p =>
    match p.2.last_sources with
    | some _ => (p.1, { p.2 with last_sources := some [] })
    | none => p)⟩

/-- A content block of a model reply: a text block (which has a text
    attribute), a tool_use block, or some other block shape (no text
    attribute and not a tool_use block). -/
inductive ContentBlock
  | text (t : String)
  | tool_use (id : String) (name : String) (input : ToolArgs)
  | other
deriving DecidableEq

/-- A model reply: its stop_reason string and its content block list. -/
structure ModelResponse where
  stop_reason : String
  content : List ContentBlock
deriving DecidableEq

/-- One tool_result dict appended by _execute_tools_for_round.  In Python
    the is_error key is only present (and set to true) in the error case;
    here it is an always-present flag defaulting to false. -/
structure ToolResultBlock where
  tool_use_id : String
  content : String
  is_error : Bool
deriving DecidableEq

/-- The content of one conversation message: the plain user query string,
    an assistant turn's content blocks, or a round's tool results. -/
inductive MessageContent
  | text (s : String)
  | blocks (bs : List ContentBlock)
  | tool_results (rs : List ToolResultBlock)
deriving DecidableEq

/-- One conversation message with its role string. -/
structure Message where
  role : String
  content : MessageContent
deriving DecidableEq

def userText (q : String) : Message := ⟨"user", .text q⟩

def assistantBlocks (bs : List ContentBlock) : Message := ⟨"assistant", .blocks bs⟩

def userToolResults (rs : List ToolResultBlock) : Message := ⟨"user", .tool_results rs⟩

/-- The Anthropic client: messages.create as a function of the system
    string, of whether the tools and tool_choice keys are present in the
    request, and of the messages list.  A transport or service failure is
    Except.error carrying the rendered exception text. -/
structure Client where
  create : String → Bool → List Message → Except String ModelResponse

/-- The tool manager as the orchestrator uses it: execute_tool by name with
    kwargs, fallible. -/
abbrev ToolExec := String → ToolArgs → Except String String

/-- A real ToolManager viewed through the orchestrator's interface. -/
def ToolManager.asExec (m : ToolManager) : ToolExec :=
  fun tool_name kwargs => m.execute_tool tool_name kwargs

/-- The static system prompt of AIGenerator (abridged to its first line;
    the orchestration logic never inspects this string, it is only passed
    to the client, so its exact text does not affect any claimed
    behavior). -/
def SYSTEM_PROMPT : String :=
  " You are an AI assistant specialized in course materials and educational content with access to comprehensive search tools for course information."

/-- The system-content construction at the top of generate_response: append
    the previous-conversation section only when the history string is
    truthy. -/
def build_system_content (conversation_history : Option String) : String :=
  match conversation_history with
  | some h =>
    if h.isEmpty then SYSTEM_PROMPT
    else SYSTEM_PROMPT ++ "\n\nPrevious conversation:\n" ++ h
  | none => SYSTEM_PROMPT

/-- AIGenerator._execute_tools_for_round: run every tool_use block of the
    reply through the tool manager; a failing call is caught individually
    and becomes an error-flagged result; non tool_use blocks contribute
    nothing. -/
def execute_tools_for_round (tool_manager : ToolExec)
    (content : List ContentBlock) : List ToolResultBlock :=
  content.filterMap (fun block =>
    match block with
    | .tool_use id name input =>
      match tool_manager name input with
      | .ok tool_result => some ⟨id, tool_result, false⟩
      | .error e => some ⟨id, "Tool execution error: " ++ e, true⟩
    | _ => none)

/-- The end-of-loop extraction in _handle_sequential_tool_execution: the
    safety checks degrade to fixed placeholder strings instead of
    raising. -/
def finalResponseText (response : ModelResponse) : String :=
  match response.content with
  | [] => "No response generated from Claude API"
  | first :: _ =>
    match first with
    | .text t => t
    | _ => "Unexpected response format from Claude API"

/-- The validation of a direct (non-tool) reply at the bottom of
    generate_response: an empty reply or a first block without text raises
    a descriptive Exception.  The Python messages interpolate the
    stop_reason and the Python type of the first block; the embedding
    keeps the stop_reason and a fixed description of the block shape. -/
def directResponseText (response : ModelResponse) : Except String String :=
  match response.content with
  | [] =>
    .error ("Empty response from Claude API (stop_reason: "
      ++ response.stop_reason ++ ")")
  | first :: _ =>
    match first with
    | .text t => .ok t
    | _ => .error "Unexpected content type in response"

/-- The outcome of the bounded loop: the text it returns, how many model
    calls it issued, and how many rounds it entered (the round counter). -/
structure LoopOutcome where
  text : String
  model_calls : Nat
  tool_rounds : Nat
deriving DecidableEq

/-- The outcome of a whole generate_response run: the returned string or
    the raised exception, the total number of model calls issued, and the
    number of tool rounds entered. -/
structure RunOutcome where
  result : Except String String
  model_calls : Nat
  tool_rounds : Nat

/-- AIGenerator._handle_sequential_tool_execution's while loop, with the
    remaining fuel standing for max_rounds minus the current round count.
    Each iteration appends the assistant turn, executes the round's tools,
    breaks when no tool ran, and otherwise issues the next model call with
    tools still advertised; a failing model call inside the loop is caught
    and returned as an answer string.  The loop exit extracts the final
    text with placeholder degradation. -/
def handle_sequential (client : Client) (system : String)
    (tool_manager : ToolExec) (messages : List Message)
    (current : ModelResponse) : Nat → LoopOutcome
  | 0 => ⟨finalResponseText current, 0, 0⟩
  | fuel + 1 =>
    if current.stop_reason = "tool_use" then
      let messages1 := messages ++ [assistantBlocks current.content]
      let tool_results := execute_tools_for_round tool_manager current.content
      if tool_results.isEmpty then
        ⟨finalResponseText current, 0, 1⟩
      else
        let messages2 := messages1 ++ [userToolResults tool_results]
        match client.create system true messages2 with
        | .error e => ⟨"API error during sequential execution: " ++ e, 1, 1⟩
        | .ok next =>
          let rest := handle_sequential client system tool_manager messages2 next fuel
          ⟨rest.text, rest.model_calls + 1, rest.tool_rounds + 1⟩
    else
      ⟨finalResponseText current, 0, 0⟩

/-- AIGenerator._handle_tool_execution: the single-round path.  One round
    of tool execution, then one closing model call without tools
    advertised; a failing closing call raises a wrapped exception; empty
    or text-free replies degrade to placeholder strings. -/
def handle_tool_execution (client : Client) (system : String)
    (tool_manager : ToolExec) (messages : List Message)
    (initial_response : ModelResponse) : RunOutcome :=
  let messages1 := messages ++ [assistantBlocks initial_response.content]
  let tool_results := execute_tools_for_round tool_manager initial_response.content
  let messages2 :=
    if tool_results.isEmpty then messages1
    else messages1 ++ [userToolResults tool_results]
  match client.create system false messages2 with
  | .error e => ⟨.error ("Anthropic API error in tool execution: " ++ e), 1, 1⟩
  | .ok final_response =>
    match final_response.content with
    | [] => ⟨.ok "No response generated after tool execution", 1, 1⟩
    | first :: _ =>
      match first with
      | .text t => ⟨.ok t, 1, 1⟩
      | _ => ⟨.ok "Unexpected response format after tool execution", 1, 1⟩

/-- AIGenerator.generate_response: issue the initial model call (a failure
    raises the wrapped "Anthropic API error"), then either run the
    sequential loop (when the reply requests tools, a tool manager is
    present and sequential tools are enabled, with max_rounds = 2), run
    the single-round handler, or validate and return the direct reply.
    In the embedding the sequential handler is total — every fallible step
    inside it is handled locally — so the except branch that would fall
    back to the single-round handler is unreachable and the sequential
    outcome is returned directly. -/
def generate_response (client : Client) (query : String)
    (conversation_history : Option String) (tools : Bool)
    (tool_manager : Option ToolExec) (enable_sequential_tools : Bool) :
    RunOutcome :=
  let system := build_system_content conversation_history
  let messages : List Message := [userText query]
  match client.create system tools messages with
  | .error e => ⟨.error ("Anthropic API error: " ++ e), 1, 0⟩
  | .ok response =>
    match tool_manager with
    | none => ⟨directResponseText response, 1, 0⟩
    | some tm =>
      if response.stop_reason = "tool_use" then
        if enable_sequential_tools then
          let loop := handle_sequential client system tm messages response 2
          ⟨.ok loop.text, loop.model_calls + 1, loop.tool_rounds⟩
        else
          let single := handle_tool_execution client system tm messages response
          ⟨single.result, single.model_calls + 1, single.tool_rounds⟩
      else
        ⟨directResponseText response, 1, 0⟩

/-- In the bounded loop, the number of model calls issued never exceeds the
    number of rounds entered, and the number of rounds entered never
    exceeds the starting fuel. -/
theorem handle_sequential_bounds (client : Client) (system : String)
    (tm : ToolExec) (fuel : Nat) :
    ∀ (messages : List Message) (cur : ModelResponse),
    (handle_sequential client system tm messages cur fuel).model_calls
      ≤ (handle_sequential client system tm messages cur fuel).tool_rounds
    ∧ (handle_sequential client system tm messages cur fuel).tool_rounds ≤ fuel := by
  induction fuel with
  | zero =>
    intro messages cur
    simp [handle_sequential]
  | succ f ih =>
    intro messages cur
    rw [handle_sequential]
    by_cases h : cur.stop_reason = "tool_use"
    · simp only [h, if_true]
      by_cases he : (execute_tools_for_round tm cur.content).isEmpty
      · simp [he]
      · simp only [he, Bool.false_eq_true, if_false]
        cases hc : client.create system true
            (messages ++ [assistantBlocks cur.content]
              ++ [userToolResults (execute_tools_for_round tm cur.content)]) with
        | error e => simp
        | ok next =>
          have hb := ih (messages ++ [assistantBlocks cur.content]
            ++ [userToolResults (execute_tools_for_round tm cur.content)]) next
          simp only []
          omega
    · simp [h]

/-- Claim C1: with sequential tools enabled, any single generate_response
    query enters at most 2 tool-execution rounds and issues at most 3 model
    calls in total — 1 initial call plus at most 1 per round. -/
theorem c1_bounded_rounds_and_calls (client : Client) (query : String)
    (conversation_history : Option String) (tools : Bool)
    (tool_manager : Option ToolExec) :
    (generate_response client query conversation_history tools
      tool_manager true).tool_rounds ≤ 2
    ∧ (generate_response client query conversation_history tools
        tool_manager true).model_calls ≤ 3
    ∧ (generate_response client query conversation_history tools
        tool_manager true).model_calls
      ≤ 1 + (generate_response client query conversation_history tools
          tool_manager true).tool_rounds := by
  unfold generate_response
  cases hc : client.create (build_system_content conversation_history) tools
      [userText query] with
  | error e => simp [hc]
  | ok response =>
    cases tool_manager with
    | none => simp [hc]
    | some tm =>
      by_cases h : response.stop_reason = "tool_use"
      · have hb := handle_sequential_bounds client
          (build_system_content conversation_history) tm 2 [userText query] response
        simp only [hc, h, if_true]
        omega
      · simp [hc, h]

/-- Claim C2: when the replies of round 1 and round 2 both request tools
    (and each round actually executes at least one tool), the loop stops
    after round 2 and the 3rd model reply's leading text is returned as the
    final answer — even though that reply's stop_reason still requests
    tools — with exactly 3 model calls and no additional tool-less closing
    call. -/
theorem c2_bound_hit_returns_third_reply (client : Client) (query : String)
    (conversation_history : Option String) (tools : Bool) (tm : ToolExec)
    (r1 r2 r3 : ModelResponse) (t : String)
    (h1 : client.create (build_system_content conversation_history) tools
      [userText query] = .ok r1)
    (hs1 : r1.stop_reason = "tool_use")
    (he1 : (execute_tools_for_round tm r1.content).isEmpty = false)
    (h2 : client.create (build_system_content conversation_history) true
      ([userText query] ++ [assistantBlocks r1.content]
        ++ [userToolResults (execute_tools_for_round tm r1.content)]) = .ok r2)
    (hs2 : r2.stop_reason = "tool_use")
    (he2 : (execute_tools_for_round tm r2.content).isEmpty = false)
    (h3 : client.create (build_system_content conversation_history) true
      ([userText query] ++ [assistantBlocks r1.content]
        ++ [userToolResults (execute_tools_for_round tm r1.content)]
        ++ [assistantBlocks r2.content]
        ++ [userToolResults (execute_tools_for_round tm r2.content)]) = .ok r3)
    (_hs3 : r3.stop_reason = "tool_use")
    (ht : r3.content.head? = some (ContentBlock.text t)) :
    generate_response client query conversation_history tools (some tm) true
      = ⟨.ok t, 3, 2⟩ := by
  have hfin : finalResponseText r3 = t := by
    cases hcon : r3.content with
    | nil => rw [hcon] at ht; simp at ht
    | cons b bs =>
      rw [hcon] at ht
      simp only [List.head?_cons, Option.some.injEq] at ht
      subst ht
      simp [finalResponseText, hcon]
  unfold generate_response
  simp only [h1, hs1, if_true]
  rw [handle_sequential]
  simp only [hs1, if_true, he1, Bool.false_eq_true, if_false]
  simp only [h2]
  rw [handle_sequential]
  simp only [hs2, if_true, he2, Bool.false_eq_true, if_false]
  simp only [h3]
  rw [handle_sequential]
  simp [hfin]

/-- A concrete client whose replies request tools on every call: the first
    two replies each carry one tool_use block, the third carries leading
    text followed by a further tool_use request. -/
def c2Client : Client :=
  ⟨fun _ _ msgs =>
    .ok (if msgs.length ≤ 1 then ⟨"tool_use", [.tool_use "a" "t" []]⟩
      else if msgs.length ≤ 3 then ⟨"tool_use", [.tool_use "b" "t" []]⟩
      else ⟨"tool_use", [.text "done", .tool_use "c" "t" []]⟩)⟩

/-- A tool executor that always succeeds with a fixed result string. -/
def okExec : ToolExec := fun _ _ => .ok "result"

/-- Witness for the round-bound claim: on the concrete always-requesting
    client the run returns the third reply's text after exactly 3 model
    calls and 2 rounds. -/
theorem c2_witness :
    generate_response c2Client "q" none true (some okExec) true
      = ⟨.ok "done", 3, 2⟩ :=
  c2_bound_hit_returns_third_reply c2Client "q" none true okExec
    ⟨"tool_use", [.tool_use "a" "t" []]⟩
    ⟨"tool_use", [.tool_use "b" "t" []]⟩
    ⟨"tool_use", [.text "done", .tool_use "c" "t" []]⟩
    "done" rfl rfl rfl rfl rfl rfl rfl rfl rfl

/-- Claim C3: a tool call that raises inside a round is caught individually
    and becomes a tool result with is_error true and content
    "Tool execution error: <message>"; the surrounding tool calls of the
    same round still produce their results, and the loop still issues the
    round's follow-up model call rather than aborting the query. -/
theorem c3_tool_error_isolated (tm : ToolExec) (pre post : List ContentBlock)
    (id name : String) (input : ToolArgs) (msg : String)
    (h : tm name input = .error msg) :
    execute_tools_for_round tm (pre ++ ContentBlock.tool_use id name input :: post)
      = execute_tools_for_round tm pre
        ++ ⟨id, "Tool execution error: " ++ msg, true⟩
          :: execute_tools_for_round tm post
    ∧ ∀ (client : Client) (system : String) (messages : List Message)
        (cur : ModelResponse) (fuel : Nat),
        cur.stop_reason = "tool_use" →
        cur.content = pre ++ ContentBlock.tool_use id name input :: post →
        1 ≤ (handle_sequential client system tm messages cur (fuel + 1)).model_calls := by
  have hsplit : execute_tools_for_round tm
      (pre ++ ContentBlock.tool_use id name input :: post)
      = execute_tools_for_round tm pre
        ++ ⟨id, "Tool execution error: " ++ msg, true⟩
          :: execute_tools_for_round tm post := by
    unfold execute_tools_for_round
    rw [List.filterMap_append, List.filterMap_cons]
    simp [h]
  refine ⟨hsplit, ?_⟩
  intro client system messages cur fuel hstop hcon
  rw [handle_sequential]
  simp only [hstop, if_true, hcon, hsplit]
  have hne : (execute_tools_for_round tm pre
      ++ ⟨id, "Tool execution error: " ++ msg, true⟩
        :: execute_tools_for_round tm post).isEmpty = false := by
    simp
  simp only [hne, Bool.false_eq_true, if_false]
  cases client.create system true
      (messages ++ [assistantBlocks (pre ++ ContentBlock.tool_use id name input :: post)]
        ++ [userToolResults (execute_tools_for_round tm pre
          ++ ⟨id, "Tool execution error: " ++ msg, true⟩
            :: execute_tools_for_round tm post)]) with
  | error e => simp
  | ok next => simp

/-- A concrete client that always replies with a plain text end turn. -/
def endTurnClient : Client := ⟨fun _ _ _ => .ok ⟨"end_turn", [.text "ok"]⟩⟩

/-- A tool executor that always raises. -/
def failExec : ToolExec := fun _ _ => .error "boom"

/-- Witness for the per-call tool error isolation: a failing call between
    two other blocks yields exactly one error-flagged result in place, and
    the loop on that round still issues its follow-up model call. -/
theorem c3_witness :
    execute_tools_for_round failExec
        ([ContentBlock.text "x"]
          ++ ContentBlock.tool_use "i" "n" []
            :: [ContentBlock.tool_use "j" "m" []])
      = execute_tools_for_round failExec [ContentBlock.text "x"]
        ++ ⟨"i", "Tool execution error: " ++ "boom", true⟩
          :: execute_tools_for_round failExec [ContentBlock.tool_use "j" "m" []]
    ∧ 1 ≤ (handle_sequential endTurnClient "s" failExec []
        ⟨"tool_use",
          [ContentBlock.text "x"]
            ++ ContentBlock.tool_use "i" "n" []
              :: [ContentBlock.tool_use "j" "m" []]⟩
        (0 + 1)).model_calls := by
  have hc := c3_tool_error_isolated failExec [ContentBlock.text "x"]
    [ContentBlock.tool_use "j" "m" []] "i" "n" [] "boom" rfl
  exact ⟨hc.1, hc.2 endTurnClient "s" [] _ 0 rfl rfl⟩

/-- A concrete client whose first reply requests one tool and whose every
    later call fails with a transport error. -/
def c4Client : Client :=
  ⟨fun _ _ msgs =>
    if msgs.length ≤ 1 then .ok ⟨"tool_use", [.tool_use "a" "t" []]⟩
    else .error "APIConnectionError: boom"⟩

/-- Claim C4 counterexample: on this run the second model call — issued
    inside the bounded loop — fails, yet generate_response neither raises
    nor propagates an error: it locally recovers and returns the normal
    answer string "API error during sequential execution: ...".  So a
    model-call failure inside the loop is not surfaced as a propagated
    wrapped error. -/
theorem c4_counterexample :
    c4Client.create (build_system_content none) true
        ([userText "q"] ++ [assistantBlocks [ContentBlock.tool_use "a" "t" []]]
          ++ [userToolResults [⟨"a", "result", false⟩]])
      = .error "APIConnectionError: boom"
    ∧ generate_response c4Client "q" none true (some okExec) true
      = ⟨.ok ("API error during sequential execution: "
          ++ "APIConnectionError: boom"), 2, 1⟩ :=
  ⟨rfl, rfl⟩

/-- Claim C4 amended: a failure of the initial model call propagates to
    the caller as the wrapped "Anthropic API error: ..." exception, but a
    failure of a model call issued inside the bounded sequential loop is
    locally recovered: the loop returns the string
    "API error during sequential execution: <message>" as the final
    answer instead of propagating an error. -/
theorem c4_amended_error_paths (client : Client) (query : String)
    (conversation_history : Option String) (tools : Bool)
    (tool_manager : Option ToolExec) (tm : ToolExec) (e : String)
    (system : String) (messages : List Message) (cur : ModelResponse)
    (fuel : Nat) :
    (client.create (build_system_content conversation_history) tools
        [userText query] = .error e →
      generate_response client query conversation_history tools
          tool_manager true
        = ⟨.error ("Anthropic API error: " ++ e), 1, 0⟩)
    ∧ (cur.stop_reason = "tool_use" →
      (execute_tools_for_round tm cur.content).isEmpty = false →
      client.create system true
          (messages ++ [assistantBlocks cur.content]
            ++ [userToolResults (execute_tools_for_round tm cur.content)])
        = .error e →
      handle_sequential client system tm messages cur (fuel + 1)
        = ⟨"API error during sequential execution: " ++ e, 1, 1⟩) := by
  constructor
  · intro hc
    unfold generate_response
    simp [hc]
  · intro hstop hne hc
    rw [handle_sequential]
    simp only [hstop, if_true, hne, Bool.false_eq_true, if_false, hc]

/-- A concrete client that is down from the very first call. -/
def downClient : Client := ⟨fun _ _ _ => .error "APIStatusError: 503"⟩

/-- Witness for the amended error-path claim: the initial call of a run
    against the down client propagates the wrapped error, and a loop round
    whose follow-up call fails returns the recovery string. -/
theorem c4_amended_witness :
    generate_response downClient "q" none true (some okExec) true
      = ⟨.error ("Anthropic API error: " ++ "APIStatusError: 503"), 1, 0⟩
    ∧ handle_sequential downClient "s" okExec []
        ⟨"tool_use", [ContentBlock.tool_use "a" "t" []]⟩ (0 + 1)
      = ⟨"API error during sequential execution: "
          ++ "APIStatusError: 503", 1, 1⟩ :=
  ⟨(c4_amended_error_paths downClient "q" none true (some okExec) okExec
      "APIStatusError: 503" "s" [] ⟨"tool_use", [ContentBlock.tool_use "a" "t" []]⟩ 0).1 rfl,
   (c4_amended_error_paths downClient "q" none true (some okExec) okExec
      "APIStatusError: 503" "s" [] ⟨"tool_use", [ContentBlock.tool_use "a" "t" []]⟩ 0).2 rfl rfl rfl⟩

/-- Outside the loop, a first content block without a text attribute makes
    the direct validation raise its descriptive error. -/
theorem directResponseText_nonText (r : ModelResponse) (b : ContentBlock)
    (bs : List ContentBlock) (hcon : r.content = b :: bs)
    (hb : ∀ t, b ≠ ContentBlock.text t) :
    directResponseText r = .error "Unexpected content type in response" := by
  unfold directResponseText
  rw [hcon]
  cases b with
  | text t => exact absurd rfl (hb t)
  | tool_use id name input => rfl
  | other => rfl

/-- Inside the loop, a first content block without a text attribute makes
    the exit extraction degrade to the fixed placeholder. -/
theorem finalResponseText_nonText (r : ModelResponse) (b : ContentBlock)
    (bs : List ContentBlock) (hcon : r.content = b :: bs)
    (hb : ∀ t, b ≠ ContentBlock.text t) :
    finalResponseText r = "Unexpected response format from Claude API" := by
  unfold finalResponseText
  rw [hcon]
  cases b with
  | text t => exact absurd rfl (hb t)
  | tool_use id name input => rfl
  | other => rfl

/-- Claim C5: an empty or shape-malformed model reply raises a descriptive
    error when it is the direct (non-tool) reply outside the bounded loop,
    while the same validation failure on the loop's exit reply degrades to
    a safe placeholder string returned as the (ok) answer. -/
theorem c5_validation_asymmetry (client : Client) (query : String)
    (conversation_history : Option String) (tools : Bool)
    (tool_manager : Option ToolExec) (tm : ToolExec) :
    (∀ r : ModelResponse,
      client.create (build_system_content conversation_history) tools
        [userText query] = .ok r →
      r.stop_reason ≠ "tool_use" →
      r.content = [] →
      generate_response client query conversation_history tools
          tool_manager true
        = ⟨.error ("Empty response from Claude API (stop_reason: "
            ++ r.stop_reason ++ ")"), 1, 0⟩)
    ∧ (∀ (r : ModelResponse) (b : ContentBlock) (bs : List ContentBlock),
      client.create (build_system_content conversation_history) tools
        [userText query] = .ok r →
      r.stop_reason ≠ "tool_use" →
      r.content = b :: bs →
      (∀ t, b ≠ ContentBlock.text t) →
      generate_response client query conversation_history tools
          tool_manager true
        = ⟨.error "Unexpected content type in response", 1, 0⟩)
    ∧ (∀ r1 r2 : ModelResponse,
      client.create (build_system_content conversation_history) tools
        [userText query] = .ok r1 →
      r1.stop_reason = "tool_use" →
      (execute_tools_for_round tm r1.content).isEmpty = false →
      client.create (build_system_content conversation_history) true
        ([userText query] ++ [assistantBlocks r1.content]
          ++ [userToolResults (execute_tools_for_round tm r1.content)])
        = .ok r2 →
      r2.stop_reason ≠ "tool_use" →
      r2.content = [] →
      generate_response client query conversation_history tools (some tm) true
        = ⟨.ok "No response generated from Claude API", 2, 1⟩)
    ∧ (∀ (r1 r2 : ModelResponse) (b : ContentBlock) (bs : List ContentBlock),
      client.create (build_system_content conversation_history) tools
        [userText query] = .ok r1 →
      r1.stop_reason = "tool_use" →
      (execute_tools_for_round tm r1.content).isEmpty = false →
      client.create (build_system_content conversation_history) true
        ([userText query] ++ [assistantBlocks r1.content]
          ++ [userToolResults (execute_tools_for_round tm r1.content)])
        = .ok r2 →
      r2.stop_reason ≠ "tool_use" →
      r2.content = b :: bs →
      (∀ t, b ≠ ContentBlock.text t) →
      generate_response client query conversation_history tools (some tm) true
        = ⟨.ok "Unexpected response format from Claude API", 2, 1⟩) := by
  refine ⟨?_, ?_, ?_, ?_⟩
  · intro r hc hstop hcon
    unfold generate_response
    simp only [hc]
    cases tool_manager with
    | none => simp [directResponseText, hcon]
    | some tmx => simp [hstop, directResponseText, hcon]
  · intro r b bs hc hstop hcon hb
    have hd := directResponseText_nonText r b bs hcon hb
    unfold generate_response
    simp only [hc]
    cases tool_manager with
    | none => simp [hd]
    | some tmx => simp [hstop, hd]
  · intro r1 r2 hc1 hstop1 hne1 hc2 hstop2 hcon2
    unfold generate_response
    simp only [hc1, hstop1, if_true]
    rw [handle_sequential]
    simp only [hstop1, if_true, hne1, Bool.false_eq_true, if_false, hc2]
    rw [handle_sequential]
    simp [hstop2, finalResponseText, hcon2]
  · intro r1 r2 b bs hc1 hstop1 hne1 hc2 hstop2 hcon2 hb
    have hf := finalResponseText_nonText r2 b bs hcon2 hb
    unfold generate_response
    simp only [hc1, hstop1, if_true]
    rw [handle_sequential]
    simp only [hstop1, if_true, hne1, Bool.false_eq_true, if_false, hc2]
    rw [handle_sequential]
    simp [hstop2, hf]

/-- A concrete client that always replies with an empty content list. -/
def emptyReplyClient : Client := ⟨fun _ _ _ => .ok ⟨"end_turn", []⟩⟩

/-- A concrete client whose first reply requests one tool and whose second
    reply is an empty non-tool reply. -/
def c5Client : Client :=
  ⟨fun _ _ msgs =>
    if msgs.length ≤ 1 then .ok ⟨"tool_use", [.tool_use "a" "t" []]⟩
    else .ok ⟨"end_turn", []⟩⟩

/-- Witness for the validation asymmetry: the direct empty reply raises the
    wrapped descriptive error, while the same empty reply at the loop exit
    is returned as the placeholder answer. -/
theorem c5_witness :
    generate_response emptyReplyClient "q" none true none true
      = ⟨.error ("Empty response from Claude API (stop_reason: "
          ++ "end_turn" ++ ")"), 1, 0⟩
    ∧ generate_response c5Client "q" none true (some okExec) true
      = ⟨.ok "No response generated from Claude API", 2, 1⟩ :=
  ⟨(c5_validation_asymmetry emptyReplyClient "q" none true none okExec).1
      ⟨"end_turn", []⟩ rfl (by decide) rfl,
   (c5_validation_asymmetry c5Client "q" none true (some okExec) okExec).2.2.1
      ⟨"tool_use", [.tool_use "a" "t" []]⟩ ⟨"end_turn", []⟩
      rfl rfl rfl rfl (by decide) rfl⟩

/-- A concrete store whose content search always returns an empty non-error
    result and which knows no links. -/
def emptySearchStore : VectorStore :=
  ⟨fun _ _ _ => ⟨[], [], none⟩, fun _ _ => none, fun _ => none⟩

/-- Claim C6 counterexample: lesson_number 0 is a supplied lesson filter,
    yet the empty-result message omits the lesson clause, because the code
    tests Python truthiness of the filter rather than its presence. -/
theorem c6_counterexample :
    (CourseSearchTool.execute ⟨emptySearchStore, []⟩ "q" none (some 0)).1
      = "No relevant content found."
    ∧ (CourseSearchTool.execute ⟨emptySearchStore, []⟩ "q" none (some 0)).1
      ≠ "No relevant content found in lesson 0." := by
  refine ⟨rfl, ?_⟩
  intro h
  rw [show (CourseSearchTool.execute ⟨emptySearchStore, []⟩ "q" none (some 0)).1
      = "No relevant content found." from rfl] at h
  simp at h

/-- Claim C6 amended: on an empty non-error result the returned message is
    "No relevant content found" extended with the course clause and/or the
    lesson clause for exactly the filters supplied with Python-truthy
    values — a non-empty course name and a non-zero lesson number — and
    ends with a period; with no truthy filters the string is exactly
    "No relevant content found.". -/
theorem c6_amended_empty_message (store : VectorStore)
    (prior : List Citation) (query : String) :
    (∀ (course_name : Option String) (lesson_number : Option Int),
      (store.search query course_name lesson_number).error = none →
      (store.search query course_name lesson_number).documents = [] →
      truthyStr course_name = false → truthyInt lesson_number = false →
      (CourseSearchTool.execute ⟨store, prior⟩ query course_name
        lesson_number).1 = "No relevant content found.")
    ∧ (∀ (c : String) (lesson_number : Option Int),
      c ≠ "" →
      (store.search query (some c) lesson_number).error = none →
      (store.search query (some c) lesson_number).documents = [] →
      truthyInt lesson_number = false →
      (CourseSearchTool.execute ⟨store, prior⟩ query (some c)
        lesson_number).1 = "No relevant content found in course '" ++ c ++ "'.")
    ∧ (∀ (course_name : Option String) (n : Int),
      n ≠ 0 →
      (store.search query course_name (some n)).error = none →
      (store.search query course_name (some n)).documents = [] →
      truthyStr course_name = false →
      (CourseSearchTool.execute ⟨store, prior⟩ query course_name
        (some n)).1 = "No relevant content found in lesson "
          ++ toString n ++ ".")
    ∧ (∀ (c : String) (n : Int),
      c ≠ "" → n ≠ 0 →
      (store.search query (some c) (some n)).error = none →
      (store.search query (some c) (some n)).documents = [] →
      (CourseSearchTool.execute ⟨store, prior⟩ query (some c)
        (some n)).1 = "No relevant content found in course '" ++ c
          ++ "' in lesson " ++ toString n ++ ".") := by
  refine ⟨?_, ?_, ?_, ?_⟩
  · intro course_name lesson_number herr hdoc hcs hln
    have h0 : truthyStr (none : Option String) = false := rfl
    simp only [CourseSearchTool.execute, herr, hdoc, SearchResults.is_empty,
      h0, List.isEmpty_nil, hcs, hln, Bool.false_eq_true, if_false, if_true]
    rfl
  · intro c lesson_number hc herr hdoc hln
    have hcs : truthyStr (some c) = true := by
      simp only [truthyStr, Bool.not_eq_true']
      rw [Bool.eq_false_iff]
      intro hce
      exact hc ((String.isEmpty_iff c).mp hce)
    have h0 : truthyStr (none : Option String) = false := rfl
    simp only [CourseSearchTool.execute, herr, hdoc, SearchResults.is_empty,
      h0, List.isEmpty_nil, hcs, hln, Bool.false_eq_true, if_false, if_true,
      Option.getD_some]
    simp only [String.append_assoc]
    rfl
  · intro course_name n hn herr hdoc hcs
    have hln : truthyInt (some n) = true := by
      simp [truthyInt, bne_iff_ne, hn]
    have h0 : truthyStr (none : Option String) = false := rfl
    simp only [CourseSearchTool.execute, herr, hdoc, SearchResults.is_empty,
      h0, List.isEmpty_nil, hcs, hln, Bool.false_eq_true, if_false, if_true,
      Option.getD_some]
    simp only [String.append_assoc]
    rfl
  · intro c n hc hn herr hdoc
    have hcs : truthyStr (some c) = true := by
      simp only [truthyStr, Bool.not_eq_true']
      rw [Bool.eq_false_iff]
      intro hce
      exact hc ((String.isEmpty_iff c).mp hce)
    have hln : truthyInt (some n) = true := by
      simp [truthyInt, bne_iff_ne, hn]
    have h0 : truthyStr (none : Option String) = false := rfl
    simp only [CourseSearchTool.execute, herr, hdoc, SearchResults.is_empty,
      h0, List.isEmpty_nil, hcs, hln, Bool.false_eq_true, if_false, if_true,
      Option.getD_some]
    simp only [String.append_assoc]
    rfl

/-- Witness for the amended empty-result message claim, covering all four
    truthy-filter combinations against the concrete empty store. -/
theorem c6_amended_witness :
    (CourseSearchTool.execute ⟨emptySearchStore, []⟩ "q" none none).1
      = "No relevant content found."
    ∧ (CourseSearchTool.execute ⟨emptySearchStore, []⟩ "q" (some "MCP") none).1
      = "No relevant content found in course '" ++ "MCP" ++ "'."
    ∧ (CourseSearchTool.execute ⟨emptySearchStore, []⟩ "q" none (some 3)).1
      = "No relevant content found in lesson " ++ toString (3 : Int) ++ "."
    ∧ (CourseSearchTool.execute ⟨emptySearchStore, []⟩ "q" (some "MCP")
        (some 3)).1
      = "No relevant content found in course '" ++ "MCP" ++ "' in lesson "
        ++ toString (3 : Int) ++ "." :=
  ⟨(c6_amended_empty_message emptySearchStore [] "q").1 none none
      rfl rfl rfl rfl,
   (c6_amended_empty_message emptySearchStore [] "q").2.1 "MCP" none
      (by decide) rfl rfl rfl,
   (c6_amended_empty_message emptySearchStore [] "q").2.2.1 none 3
      (by decide) rfl rfl rfl,
   (c6_amended_empty_message emptySearchStore [] "q").2.2.2 "MCP" 3
      (by decide) (by decide) rfl rfl⟩

/-- Claim C7 counterexample: an execution that returns an empty (non-error)
    result records nothing and leaves the previous execution's citations in
    place, so after this execution the citation list does not reflect this
    execution's (zero) results. -/
theorem c7_counterexample :
    ((CourseSearchTool.execute ⟨emptySearchStore, [⟨"stale", none⟩]⟩
        "q" none none).2).last_sources = [⟨"stale", none⟩]
    ∧ ((CourseSearchTool.execute ⟨emptySearchStore, [⟨"stale", none⟩]⟩
        "q" none none).2).last_sources ≠ [] := by
  refine ⟨rfl, ?_⟩
  intro h
  rw [show ((CourseSearchTool.execute ⟨emptySearchStore, [⟨"stale", none⟩]⟩
      "q" none none).2).last_sources = [⟨"stale", none⟩] from rfl] at h
  simp at h

/-- The citation the formatting pass records for one result's metadata:
    display text "<course title>" with " - Lesson <n>" appended when a
    lesson number is present, and url = the lesson link when a lesson
    number is present, else the course link, either dropped to none when
    the stored link is not truthy. -/
def citationOf (store : VectorStore) (meta : ChunkMeta) : Citation :=
  let course_title := meta.course_title.getD "unknown"
  match meta.lesson_number with
  | some n =>
    ⟨course_title ++ " - Lesson " ++ toString n,
     truthyLink (store.get_lesson_link course_title n)⟩
  | none =>
    ⟨course_title, truthyLink (store.get_course_link course_title)⟩

/-- Mapping a function of the second component over a zip of equal-length
    lists is mapping it over the second list. -/
theorem zip_map_snd_eq_map {α β γ : Type} (f : β → γ) :
    ∀ (xs : List α) (ys : List β), xs.length = ys.length →
    (xs.zip ys).map (fun p => f p.2) = ys.map f := by
  intro xs
  induction xs with
  | nil =>
    intro ys h
    cases ys with
    | nil => rfl
    | cons y ys => simp at h
  | cons x xs ih =>
    intro ys h
    cases ys with
    | nil => simp at h
    | cons y ys =>
      simp only [List.zip_cons_cons, List.map_cons]
      rw [ih ys (by simpa using h)]

/-- Claim C7 amended: an execution whose search result is non-error and
    non-empty records exactly one citation per returned result — as given
    by citationOf — and this replaces the previous citation list whatever
    it was; an execution returning a truthy error or an empty result leaves
    the citation list unchanged. -/
theorem c7_amended_citations (store : VectorStore) (prior : List Citation)
    (query : String) (course_name : Option String)
    (lesson_number : Option Int) :
    (truthyStr (store.search query course_name lesson_number).error = false →
      (store.search query course_name lesson_number).is_empty = false →
      (store.search query course_name lesson_number).documents.length
        = (store.search query course_name lesson_number).metadata.length →
      ((CourseSearchTool.execute ⟨store, prior⟩ query course_name
          lesson_number).2).last_sources
        = (store.search query course_name lesson_number).metadata.map
            (citationOf store))
    ∧ (truthyStr (store.search query course_name lesson_number).error
        = true →
      ((CourseSearchTool.execute ⟨store, prior⟩ query course_name
          lesson_number).2).last_sources = prior)
    ∧ (truthyStr (store.search query course_name lesson_number).error
        = false →
      (store.search query course_name lesson_number).is_empty = true →
      ((CourseSearchTool.execute ⟨store, prior⟩ query course_name
          lesson_number).2).last_sources = prior) := by
  refine ⟨?_, ?_, ?_⟩
  · intro herr hemp hlen
    simp only [CourseSearchTool.execute, herr, hemp, Bool.false_eq_true,
      if_false, CourseSearchTool.format_results, List.map_map]
    have hfun : ((store.search query course_name lesson_number).documents.zip
          (store.search query course_name lesson_number).metadata).map
            (fun dm => citationOf store dm.2)
        = (store.search query course_name lesson_number).metadata.map
            (citationOf store) :=
      zip_map_snd_eq_map (citationOf store) _ _ hlen
    exact hfun
  · intro herr
    simp only [CourseSearchTool.execute, herr, if_true]
  · intro herr hemp
    simp only [CourseSearchTool.execute, herr, hemp, Bool.false_eq_true,
      if_false, if_true]

/-- A concrete store returning a single hit with a known lesson link. -/
def oneHitStore : VectorStore :=
  ⟨fun _ _ _ => ⟨["doc body"], [⟨some "CourseA", some 2⟩], none⟩,
   fun _ _ => some "http://lesson2", fun _ => some "http://course"⟩

/-- A concrete store whose search always reports an error string. -/
def errStore : VectorStore :=
  ⟨fun _ _ _ => ⟨[], [], some "No course found matching 'X'"⟩,
   fun _ _ => none, fun _ => none⟩

/-- Witness for the amended citation claim: a one-hit execution replaces
    the stale citation with that hit's citation, and an error execution
    leaves the stale citation untouched. -/
theorem c7_witness :
    ((CourseSearchTool.execute ⟨oneHitStore, [⟨"stale", none⟩]⟩ "q" none
        none).2).last_sources
      = [citationOf oneHitStore ⟨some "CourseA", some 2⟩]
    ∧ ((CourseSearchTool.execute ⟨errStore, [⟨"stale", none⟩]⟩ "q" none
        none).2).last_sources = [⟨"stale", none⟩] :=
  ⟨(c7_amended_citations oneHitStore [⟨"stale", none⟩] "q" none none).1
      rfl rfl rfl,
   (c7_amended_citations errStore [⟨"stale", none⟩] "q" none none).2.1 rfl⟩

/-- Claim C8: executing an unregistered tool name never raises; it returns
    the fixed not-found string as a normal value. -/
theorem c8_unknown_tool_not_found (m : ToolManager) (tool_name : String)
    (kwargs : ToolArgs) (h : m.tools.lookup tool_name = none) :
    m.execute_tool tool_name kwargs
      = .ok ("Tool '" ++ tool_name ++ "' not found") := by
  unfold ToolManager.execute_tool
  rw [h]

/-- Witness for the unknown-tool claim: executing "unknown" with empty
    arguments on a manager without that name returns exactly the fixed
    string. -/
theorem c8_witness :
    ToolManager.execute_tool ⟨[]⟩ "unknown" []
      = .ok "Tool 'unknown' not found" :=
  c8_unknown_tool_not_found ⟨[]⟩ "unknown" [] rfl

/-- When every scanned tool's citation list is absent or empty, the scan
    returns the empty list. -/
theorem firstNonemptySources_eq_nil :
    ∀ ts : List (String × RegisteredTool),
    (∀ p ∈ ts, ∀ l, p.2.last_sources = some l → l = []) →
    firstNonemptySources ts = [] := by
  intro ts
  induction ts with
  | nil => intro _; rfl
  | cons p rest ih =>
    intro h
    obtain ⟨nm, tool⟩ := p
    have hrest := ih (fun q hq l hl => h q (List.mem_cons_of_mem _ hq) l hl)
    cases htool : tool.last_sources with
    | none => simp [firstNonemptySources, htool, hrest]
    | some l =>
      have hl : l = [] := h (nm, tool) (List.mem_cons_self _ _) l htool
      subst hl
      simp [firstNonemptySources, htool, hrest]

/-- The scan returns the first present non-empty citation list. -/
theorem firstNonemptySources_append_first :
    ∀ (pre : List (String × RegisteredTool)) (nm : String)
      (t : RegisteredTool) (l : List Citation)
      (post : List (String × RegisteredTool)),
    (∀ p ∈ pre, ∀ l2, p.2.last_sources = some l2 → l2 = []) →
    t.last_sources = some l → l ≠ [] →
    firstNonemptySources (pre ++ (nm, t) :: post) = l := by
  intro pre
  induction pre with
  | nil =>
    intro nm t l post hpre ht hl
    have hle : l.isEmpty = false := by
      rw [Bool.eq_false_iff]
      intro hc
      exact hl (List.isEmpty_iff.mp hc)
    simp [firstNonemptySources, ht, hle]
  | cons p rest ih =>
    intro nm t l post hpre ht hl
    obtain ⟨nm0, tool0⟩ := p
    have hrec := ih nm t l post
      (fun q hq l2 hl2 => hpre q (List.mem_cons_of_mem _ hq) l2 hl2) ht hl
    cases htool : tool0.last_sources with
    | none => simp [List.cons_append, firstNonemptySources, htool, hrec]
    | some l0 =>
      have h0 : l0 = [] := hpre (nm0, tool0) (List.mem_cons_self _ _) l0 htool
      subst h0
      simp [List.cons_append, firstNonemptySources, htool, hrec]

/-- Claim C9: get_last_sources scans the registered tools in order and
    returns the first non-empty citation list (the empty list when every
    tool's list is absent or empty), and reset_sources empties every
    registered tool's citation list while keeping the registered names —
    so a scan right after a reset returns the empty list. -/
theorem c9_sources_aggregation (pre post : List (String × RegisteredTool))
    (nm : String) (t : RegisteredTool) (l : List Citation)
    (m : ToolManager) :
    ((∀ p ∈ pre, ∀ l2, p.2.last_sources = some l2 → l2 = []) →
      t.last_sources = some l → l ≠ [] →
      ToolManager.get_last_sources ⟨pre ++ (nm, t) :: post⟩ = l)
    ∧ ((∀ p ∈ m.tools, ∀ l2, p.2.last_sources = some l2 → l2 = []) →
      m.get_last_sources = [])
    ∧ (∀ p ∈ m.reset_sources.tools, ∀ l2,
      p.2.last_sources = some l2 → l2 = [])
    ∧ m.reset_sources.tools.map Prod.fst = m.tools.map Prod.fst
    ∧ m.reset_sources.get_last_sources = [] := by
  have hreset : ∀ p ∈ m.reset_sources.tools, ∀ l2,
      p.2.last_sources = some l2 → l2 = [] := by
    intro p hp l2 hl2
    simp only [ToolManager.reset_sources, List.mem_map] at hp
    obtain ⟨q, hq, hpq⟩ := hp
    cases hls : q.2.last_sources with
    | none =>
      rw [hls] at hpq
      rw [← hpq] at hl2
      rw [hls] at hl2
      exact absurd hl2 (by simp)
    | some l0 =>
      rw [hls] at hpq
      rw [← hpq] at hl2
      simp only at hl2
      injection hl2 with h2
      exact h2.symm
  refine ⟨?_, ?_, hreset, ?_, ?_⟩
  · intro hpre ht hl
    exact firstNonemptySources_append_first pre nm t l post hpre ht hl
  · intro hall
    exact firstNonemptySources_eq_nil m.tools hall
  · simp only [ToolManager.reset_sources, List.map_map]
    refine List.map_congr_left ?_
    intro q hq
    cases hls : q.2.last_sources with
    | none => simp [hls]
    | some l0 => simp [hls]
  · exact firstNonemptySources_eq_nil m.reset_sources.tools hreset

/-- A registered tool whose citation list is present but empty. -/
def rtoolA : RegisteredTool := ⟨fun _ => .ok "a", some []⟩

/-- A registered tool holding one citation. -/
def rtoolB : RegisteredTool := ⟨fun _ => .ok "b", some [⟨"srcB", none⟩]⟩

/-- A concrete manager with the two tools registered in order. -/
def mgrAB : ToolManager := ⟨[("a", rtoolA), ("b", rtoolB)]⟩

/-- Witness for the citation aggregation claim: on the concrete manager
    the scan skips the empty-list tool and returns the second tool's list,
    and a scan right after reset_sources returns the empty list. -/
theorem c9_witness :
    ToolManager.get_last_sources ⟨[("a", rtoolA)] ++ ("b", rtoolB) :: []⟩
      = [⟨"srcB", none⟩]
    ∧ mgrAB.reset_sources.get_last_sources = [] :=
  ⟨(c9_sources_aggregation [("a", rtoolA)] [] "b" rtoolB
      [⟨"srcB", none⟩] mgrAB).1
      (by
        intro p hp l2 hl2
        simp only [List.mem_singleton] at hp
        subst hp
        simp only [rtoolA] at hl2
        injection hl2 with h2
        exact h2.symm)
      rfl (by simp),
   (c9_sources_aggregation [] [] "x" rtoolA [] mgrAB).2.2.2.2⟩

/-- Claim C10: a supplied lesson_number of 0 is dropped from the
    empty-result message — the empty path tests Python truthiness of the
    filter — while the formatting path tests is-not-None and so a result
    whose metadata carries lesson number 0 does get " - Lesson 0" in its
    header. -/
theorem c10_lesson_zero_truthiness (store : VectorStore)
    (prior : List Citation) (q c title doc : String) :
    ((store.search q none (some 0)).error = none →
      (store.search q none (some 0)).documents = [] →
      (CourseSearchTool.execute ⟨store, prior⟩ q none (some 0)).1
        = "No relevant content found.")
    ∧ (c ≠ "" →
      (store.search q (some c) (some 0)).error = none →
      (store.search q (some c) (some 0)).documents = [] →
      (CourseSearchTool.execute ⟨store, prior⟩ q (some c) (some 0)).1
        = "No relevant content found in course '" ++ c ++ "'.")
    ∧ (CourseSearchTool.format_results ⟨store, prior⟩
        ⟨[doc], [⟨some title, some 0⟩], none⟩).1
      = "[" ++ title ++ " - Lesson 0]\n" ++ doc := by
  have h0 : truthyStr (none : Option String) = false := rfl
  have hl0 : truthyInt (some 0) = false := rfl
  refine ⟨?_, ?_, ?_⟩
  · intro herr hdoc
    simp only [CourseSearchTool.execute, herr, hdoc, SearchResults.is_empty,
      h0, hl0, List.isEmpty_nil, Bool.false_eq_true, if_false, if_true]
    rfl
  · intro hc herr hdoc
    have hcs : truthyStr (some c) = true := by
      simp only [truthyStr, Bool.not_eq_true']
      rw [Bool.eq_false_iff]
      intro hce
      exact hc ((String.isEmpty_iff c).mp hce)
    simp only [CourseSearchTool.execute, herr, hdoc, SearchResults.is_empty,
      h0, hl0, List.isEmpty_nil, hcs, Bool.false_eq_true, if_false, if_true,
      Option.getD_some]
    simp only [String.append_assoc]
    rfl
  · simp only [CourseSearchTool.format_results, List.zip_cons_cons,
      List.zip_nil_right, List.map_cons, List.map_nil]
    simp only [String.append_assoc]
    rfl

/-- Witness for the lesson-zero truthiness claim, on the concrete empty
    store and a concrete one-hit result carrying lesson number 0. -/
theorem c10_witness :
    (CourseSearchTool.execute ⟨emptySearchStore, []⟩ "q" none (some 0)).1
      = "No relevant content found."
    ∧ (CourseSearchTool.execute ⟨emptySearchStore, []⟩ "q" (some "MCP")
        (some 0)).1
      = "No relevant content found in course '" ++ "MCP" ++ "'."
    ∧ (CourseSearchTool.format_results ⟨emptySearchStore, []⟩
        ⟨["doc"], [⟨some "CourseA", some 0⟩], none⟩).1
      = "[" ++ "CourseA" ++ " - Lesson 0]\n" ++ "doc" :=
  ⟨(c10_lesson_zero_truthiness emptySearchStore [] "q" "MCP" "CourseA"
      "doc").1 rfl rfl,
   (c10_lesson_zero_truthiness emptySearchStore [] "q" "MCP" "CourseA"
      "doc").2.1 (by decide) rfl rfl,
   (c10_lesson_zero_truthiness emptySearchStore [] "q" "MCP" "CourseA"
      "doc").2.2⟩
